import Mathlib

/-!
Verification development for the multi-agent content pipeline
(`src/content_agents.py` and `src/knowledge_agents.py`).

The Python classes are shallowly embedded: each mutable object becomes an
explicit state value threaded through pure functions, Python dicts become
insertion-ordered association lists, float scores become rationals, and the
external generation collaborator (`_call_claude`) becomes an oracle returning
`Except`.  Definitions keep the source's names where Lean allows it.
-/

/-! ## Python dict model

Python dicts are insertion ordered: assigning to an existing key updates the
value in place (keeping the key's position), assigning to a fresh key appends
it at the end.  Lookup returns the entry for the key when present. -/

/-- Insertion-ordered dict assignment `d[k] = v`: the first entry for `k` is
updated in place, otherwise `(k, v)` is appended at the end. -/
def dictInsert {α : Type} : List (String × α) → String → α → List (String × α)
  | [], k, v => [(k, v)]
  | p :: rest, k, v => if p.1 = k then (k, v) :: rest else p :: dictInsert rest k v

/-- Dict lookup `d[k]`: the first entry for `k`, when present. -/
def dictGet? {α : Type} : List (String × α) → String → Option α
  | [], _ => none
  | p :: rest, k => if p.1 = k then some p.2 else dictGet? rest k

theorem dictGet?_dictInsert_same {α : Type} (d : List (String × α)) (k : String) (v : α) :
    dictGet? (dictInsert d k v) k = some v := by
  induction d with
  | nil => simp [dictInsert, dictGet?]
  | cons p rest ih =>
    by_cases h : p.1 = k
    · simp [dictInsert, dictGet?, h]
    · simpa [dictInsert, dictGet?, h] using ih

theorem dictGet?_dictInsert_other {α : Type} (d : List (String × α)) (k k' : String) (v : α)
    (hne : k' ≠ k) : dictGet? (dictInsert d k v) k' = dictGet? d k' := by
  have hne' : ¬ (k = k') := fun hk => hne hk.symm
  induction d with
  | nil => simp [dictInsert, dictGet?, hne']
  | cons p rest ih =>
    by_cases h : p.1 = k
    · subst h
      simp [dictInsert, dictGet?, hne']
    · by_cases h' : p.1 = k'
      · simp [dictInsert, dictGet?, h, h', hne]
      · simpa [dictInsert, dictGet?, h, h'] using ih

theorem mem_dictInsert {α : Type} (d : List (String × α)) (k : String) (v : α)
    (p : String × α) (hp : p ∈ dictInsert d k v) : p = (k, v) ∨ p ∈ d := by
  induction d with
  | nil => simpa [dictInsert] using hp
  | cons q rest ih =>
    by_cases h : q.1 = k
    · simp only [dictInsert, if_pos h, List.mem_cons] at hp
      rcases hp with hp | hp
      · exact Or.inl hp
      · exact Or.inr (List.mem_cons_of_mem _ hp)
    · simp only [dictInsert, if_neg h, List.mem_cons] at hp
      rcases hp with hp | hp
      · exact Or.inr (by simp [hp])
      · rcases ih hp with hp | hp
        · exact Or.inl hp
        · exact Or.inr (List.mem_cons_of_mem _ hp)

/-! ## ContentKnowledgeGraph (src/content_agents.py, lines 122-165) -/

/-- One value of `topics_covered`: the dict
`{'keywords': ..., 'performance': ..., 'created': ...}` built by
`register_topic`.  The `created` timestamp (`datetime.now().isoformat()`) is an
input of the embedding, supplied by the caller. -/
structure TopicEntry where
  keywords : List String
  performance : List (String × String)
  created : String
deriving Repr, DecidableEq

/-- State of `ContentKnowledgeGraph.__init__`: every field starts empty. -/
structure ContentKnowledgeGraph where
  topics_covered : List (String × TopicEntry) := []
  keyword_map : List (String × List String) := []
  competitor_content : List (String × String) := []
  audience_insights : List String := []
  performance_data : List (String × String) := []
  content_calendar : List String := []
deriving Repr, DecidableEq

/-- The inverted-index update inside `register_topic`'s loop body:
`if keyword not in self.keyword_map: self.keyword_map[keyword] = []` followed by
`self.keyword_map[keyword].append(topic)`. -/
def kwAppend : List (String × List String) → String → String → List (String × List String)
  | [], keyword, topic => [(keyword, [topic])]
  | p :: rest, keyword, topic =>
      if p.1 = keyword then (p.1, p.2 ++ [topic]) :: rest
      else p :: kwAppend rest keyword topic

/-- ContentKnowledgeGraph.register_topic: overwrites the topic entry and
appends the topic to each keyword's inverted index, one append per occurrence
of the keyword in `keywords`.  `now` is the `datetime.now().isoformat()`
timestamp. -/
def register_topic (g : ContentKnowledgeGraph) (topic : String) (keywords : List String)
    (performance : List (String × String)) (now : String) : ContentKnowledgeGraph :=
  { g with
    topics_covered := dictInsert g.topics_covered topic ⟨keywords, performance, now⟩
    keyword_map := keywords.foldl (fun m keyword => kwAppend m keyword topic) g.keyword_map }

/-- ContentKnowledgeGraph.get_content_gaps: `gaps = []` and return it — the
comment "This would integrate with real competitor analysis" marks it a stub. -/
def get_content_gaps (_g : ContentKnowledgeGraph) : List String :=
  let gaps : List String := []
  gaps

/-- One element of the `related` list built by `get_related_content`:
`{'topic': ..., 'overlap': ..., 'relevance': ...}`. -/
structure RelatedEntry where
  topic : String
  overlap : List String
  relevance : ℚ
deriving Repr, DecidableEq

/-- Stable insertion of an entry into a relevance-descending list: the new
entry goes after every already-placed entry of relevance ≥ its own, as
Python's stable `sorted(..., reverse=True)` places a later list element. -/
def insertRelDesc (e : RelatedEntry) : List RelatedEntry → List RelatedEntry
  | [] => [e]
  | x :: xs => if x.relevance < e.relevance then e :: x :: xs else x :: insertRelDesc e xs

/-- The call `sorted(related, key=lambda x: x['relevance'], reverse=True)`:
a stable sort by relevance descending. -/
def sortByRelevance (l : List RelatedEntry) : List RelatedEntry :=
  l.foldl (fun acc e => insertRelDesc e acc) []

/-- The loop body of `get_related_content`: for each registered
`(other_topic, data)` pair other than `topic` whose keyword set overlaps the
given topic's keyword set, the entry with the overlap and the relevance ratio
`len(overlap) / len(topic_keywords)`.  Python's keyword *sets* are modelled by
deduplicated lists: `topic_keywords` is the deduplicated keyword list of
`topic`, and the set intersection is its sublist of keywords that also occur in
the other topic's keywords. -/
def relatedCandidates (g : ContentKnowledgeGraph) (topic : String) : List RelatedEntry :=
  match dictGet? g.topics_covered topic with
  | none => []
  | some entry =>
    let topic_keywords := entry.keywords.dedup
    g.topics_covered.filterMap (fun p =>
      if p.1 ≠ topic then
        let overlap := topic_keywords.filter (fun x => p.2.keywords.contains x)
        if overlap = [] then none
        else some ⟨p.1, overlap, (overlap.length : ℚ) / (topic_keywords.length : ℚ)⟩
      else none)

/-- ContentKnowledgeGraph.get_related_content: the overlapping-topic entries,
sorted by relevance descending (stable) and truncated to the first 5. -/
def get_related_content (g : ContentKnowledgeGraph) (topic : String) : List RelatedEntry :=
  (sortByRelevance (relatedCandidates g topic)).take 5

/-- The keyword list stored for a topic (empty when the topic is unknown). -/
def topicKeywords (g : ContentKnowledgeGraph) (t : String) : List String :=
  ((dictGet? g.topics_covered t).map TopicEntry.keywords).getD []

/-- The inverted-index entry for a keyword (empty when the keyword is unknown). -/
def kwTopics (g : ContentKnowledgeGraph) (k : String) : List String :=
  (dictGet? g.keyword_map k).getD []

/-! ## Lemmas about the relevance sort and the candidate list -/

theorem mem_insertRelDesc (e x : RelatedEntry) (l : List RelatedEntry)
    (hx : x ∈ insertRelDesc e l) : x = e ∨ x ∈ l := by
  induction l with
  | nil => simpa [insertRelDesc] using hx
  | cons y ys ih =>
    by_cases h : y.relevance < e.relevance
    · simp only [insertRelDesc, if_pos h, List.mem_cons] at hx
      rcases hx with hx | hx | hx
      · exact Or.inl hx
      · exact Or.inr (by simp [hx])
      · exact Or.inr (List.mem_cons_of_mem _ hx)
    · simp only [insertRelDesc, if_neg h, List.mem_cons] at hx
      rcases hx with hx | hx
      · exact Or.inr (by simp [hx])
      · rcases ih hx with h' | h'
        · exact Or.inl h'
        · exact Or.inr (List.mem_cons_of_mem _ h')

theorem mem_sortByRelevance_aux (l : List RelatedEntry) :
    ∀ acc x, x ∈ l.foldl (fun acc e => insertRelDesc e acc) acc → x ∈ acc ∨ x ∈ l := by
  induction l with
  | nil => exact fun acc x hx => Or.inl hx
  | cons e es ih =>
    intro acc x hx
    rcases ih _ x hx with h | h
    · rcases mem_insertRelDesc e x acc h with h | h
      · exact Or.inr (by simp [h])
      · exact Or.inl h
    · exact Or.inr (List.mem_cons_of_mem _ h)

theorem mem_sortByRelevance (l : List RelatedEntry) (x : RelatedEntry)
    (hx : x ∈ sortByRelevance l) : x ∈ l := by
  rcases mem_sortByRelevance_aux l [] x hx with h | h
  · simp at h
  · exact h

/-- Every candidate entry names another topic, has a non-empty overlap and a
relevance in (0, 1]. -/
theorem relatedCandidates_mem (g : ContentKnowledgeGraph) (topic : String) (e : RelatedEntry)
    (he : e ∈ relatedCandidates g topic) :
    e.topic ≠ topic ∧ e.overlap ≠ [] ∧ 0 < e.relevance ∧ e.relevance ≤ 1 := by
  revert he
  unfold relatedCandidates
  cases hd : dictGet? g.topics_covered topic with
  | none => intro he; simp at he
  | some entry =>
    intro he
    rcases List.mem_filterMap.mp he with ⟨p, _hp, hf⟩
    simp only at hf
    by_cases h1 : p.1 ≠ topic
    · rw [if_pos h1] at hf
      by_cases h2 : entry.keywords.dedup.filter (fun x => p.2.keywords.contains x) = []
      · rw [if_pos h2] at hf; exact absurd hf (by simp)
      · rw [if_neg h2] at hf
        have he' : e = ⟨p.1,
            entry.keywords.dedup.filter (fun x => p.2.keywords.contains x),
            ((entry.keywords.dedup.filter (fun x => p.2.keywords.contains x)).length : ℚ) /
              (entry.keywords.dedup.length : ℚ)⟩ := by
          cases hf; rfl
        subst he'
        refine ⟨h1, h2, ?_, ?_⟩
        · have holen : 0 < (entry.keywords.dedup.filter
              (fun x => p.2.keywords.contains x)).length :=
            List.length_pos.mpr h2
          have hklen : 0 < entry.keywords.dedup.length :=
            lt_of_lt_of_le holen (List.length_filter_le _ _)
          exact div_pos (by exact_mod_cast holen) (by exact_mod_cast hklen)
        · have holen : 0 < (entry.keywords.dedup.filter
              (fun x => p.2.keywords.contains x)).length :=
            List.length_pos.mpr h2
          have hklen : 0 < entry.keywords.dedup.length :=
            lt_of_lt_of_le holen (List.length_filter_le _ _)
          rw [div_le_one (by exact_mod_cast hklen)]
          exact_mod_cast List.length_filter_le _ _
    · rw [if_neg h1] at hf
      exact absurd hf (by simp)

/-! ## Claims C4, C5, C6, C9, C10 -/

/-- C4: for every ContentKnowledgeGraph state and topic `t`,
`get_related_content t` returns at most 5 entries, never an entry whose topic
equals `t`, and the empty sequence when `t` is unregistered or no other
registered topic shares a keyword with `t`. -/
theorem C4_related_content_bounds (g : ContentKnowledgeGraph) (t : String) :
    (get_related_content g t).length ≤ 5 ∧
    (∀ e ∈ get_related_content g t, e.topic ≠ t) ∧
    (dictGet? g.topics_covered t = none → get_related_content g t = []) ∧
    ((∀ p ∈ g.topics_covered, p.1 ≠ t → ∀ k ∈ p.2.keywords, k ∉ topicKeywords g t) →
      get_related_content g t = []) := by
  refine ⟨?_, ?_, ?_, ?_⟩
  · exact List.length_take_le 5 _
  · intro e he
    exact (relatedCandidates_mem g t e
      (mem_sortByRelevance _ _ (List.take_subset _ _ he))).1
  · intro hd
    simp [get_related_content, relatedCandidates, hd, sortByRelevance]
  · intro hsh
    suffices hc : relatedCandidates g t = [] by
      simp [get_related_content, hc, sortByRelevance]
    unfold relatedCandidates
    cases hd : dictGet? g.topics_covered t with
    | none => rfl
    | some entry =>
      simp only []
      rw [List.filterMap_eq_nil_iff]
      intro p hp
      by_cases h1 : p.1 ≠ t
      · rw [if_pos h1]
        have hov : entry.keywords.dedup.filter (fun x => p.2.keywords.contains x) = [] := by
          rw [List.filter_eq_nil_iff]
          intro x hx
          have hxk : x ∈ topicKeywords g t := by
            rw [topicKeywords, hd]
            exact List.mem_dedup.mp hx
          intro hcont
          exact absurd hxk (hsh p hp h1 x (by simpa using hcont))
        rw [if_pos hov]
      · rw [if_neg h1]

/-- The concrete two-topic scenario of claim C5:
`register("A", ["x","y"], {})` then `register("B", ["y","z"], {})`. -/
def relatedScenarioGraph : ContentKnowledgeGraph :=
  register_topic (register_topic {} "A" ["x", "y"] [] "") "B" ["y", "z"] [] ""

/-- C5: in the two-topic scenario, `get_related_content "A"` returns exactly one
entry, with topic "B", overlap ["y"] and relevance 1/2. -/
theorem C5_related_scenario :
    get_related_content relatedScenarioGraph "A" =
      [⟨"B", ["y"], 1/2⟩] := rfl

/-- C9: every entry returned by `get_related_content` has a non-empty overlap
list and a relevance strictly greater than 0 and at most 1; the relevance
quotient's divisor (the topic's distinct-keyword count) is non-zero whenever it
is evaluated, since the overlap is a subset of the topic's keyword set. -/
theorem C9_relevance_in_unit_interval (g : ContentKnowledgeGraph) (t : String)
    (e : RelatedEntry) (he : e ∈ get_related_content g t) :
    e.overlap ≠ [] ∧ 0 < e.relevance ∧ e.relevance ≤ 1 :=
  have h := relatedCandidates_mem g t e
    (mem_sortByRelevance _ _ (List.take_subset _ _ he))
  ⟨h.2.1, h.2.2.1, h.2.2.2⟩

/-- Witness for C9 at the concrete scenario graph: the single entry returned
for topic "A" indeed has non-empty overlap and relevance in (0, 1]. -/
theorem C9_relevance_in_unit_interval_witness :
    (⟨"B", ["y"], 1/2⟩ : RelatedEntry).overlap ≠ [] ∧
    0 < (⟨"B", ["y"], 1/2⟩ : RelatedEntry).relevance ∧
    (⟨"B", ["y"], 1/2⟩ : RelatedEntry).relevance ≤ 1 :=
  C9_relevance_in_unit_interval relatedScenarioGraph "A" ⟨"B", ["y"], 1/2⟩
    (by rw [show get_related_content relatedScenarioGraph "A" = [⟨"B", ["y"], 1/2⟩] from rfl]
        exact List.mem_singleton_self _)

/-- C10: `get_content_gaps` is a stub that returns the empty list on every
graph state. -/
theorem C10_content_gaps_empty (g : ContentKnowledgeGraph) :
    get_content_gaps g = [] := rfl

/-! ## Claim C6: registering the same topic twice -/

theorem dictGet?_kwAppend_same (m : List (String × List String)) (k t : String) :
    dictGet? (kwAppend m k t) k = some (((dictGet? m k).getD []) ++ [t]) := by
  induction m with
  | nil => simp [kwAppend, dictGet?]
  | cons p rest ih =>
    by_cases h : p.1 = k
    · simp [kwAppend, dictGet?, h]
    · simpa [kwAppend, dictGet?, h] using ih

theorem dictGet?_kwAppend_other (m : List (String × List String)) (k k' t : String)
    (hne : k' ≠ k) : dictGet? (kwAppend m k t) k' = dictGet? m k' := by
  have hne' : ¬ (k = k') := fun hk => hne hk.symm
  induction m with
  | nil => simp [kwAppend, dictGet?, hne']
  | cons p rest ih =>
    by_cases h : p.1 = k
    · subst h
      simp [kwAppend, dictGet?, hne']
    · by_cases h' : p.1 = k'
      · simp [kwAppend, dictGet?, h, h', hne]
      · simpa [kwAppend, dictGet?, h, h'] using ih

/-- Each pass of `register_topic`'s keyword loop adds one occurrence of the
topic to the inverted-index entry of `k` per occurrence of `k` in the keyword
list. -/
theorem count_kwTopics_foldl (kws : List String) (m : List (String × List String))
    (k t : String) :
    ((dictGet? (kws.foldl (fun m kw => kwAppend m kw t) m) k).getD []).count t
      = ((dictGet? m k).getD []).count t + kws.count k := by
  induction kws generalizing m with
  | nil => simp
  | cons kw kws ih =>
    rw [List.foldl_cons, ih]
    by_cases h : kw = k
    · subst h
      rw [dictGet?_kwAppend_same]
      simp [List.count_append, List.count_cons]
      omega
    · rw [dictGet?_kwAppend_other m kw k t (fun hk => h hk.symm)]
      simp [List.count_cons, h]

/-- C6: calling `register_topic` twice for the same topic with different
keyword lists leaves the topic entry holding only the second keyword list
(last write wins), while for a keyword appearing in both calls the inverted
index `keyword_map` accumulates both registrations: the count of the topic in
that keyword's index entry grows by the keyword's occurrence count of each
call, hence by at least 2. -/
theorem C6_register_topic_twice (g : ContentKnowledgeGraph) (t : String)
    (kws1 kws2 : List String) (p1 p2 : List (String × String)) (n1 n2 : String)
    (k : String) (hk1 : k ∈ kws1) (hk2 : k ∈ kws2) (_hne : kws1 ≠ kws2) :
    topicKeywords (register_topic (register_topic g t kws1 p1 n1) t kws2 p2 n2) t = kws2 ∧
    (kwTopics (register_topic (register_topic g t kws1 p1 n1) t kws2 p2 n2) k).count t
      = (kwTopics g k).count t + kws1.count k + kws2.count k ∧
    (kwTopics g k).count t + 2 ≤
      (kwTopics (register_topic (register_topic g t kws1 p1 n1) t kws2 p2 n2) k).count t := by
  refine ⟨?_, ?_, ?_⟩
  · simp [register_topic, topicKeywords, dictGet?_dictInsert_same]
  · simp only [register_topic, kwTopics]
    rw [count_kwTopics_foldl, count_kwTopics_foldl]
  · have hcount : (kwTopics (register_topic (register_topic g t kws1 p1 n1) t kws2 p2 n2)
        k).count t = (kwTopics g k).count t + kws1.count k + kws2.count k := by
      simp only [register_topic, kwTopics]
      rw [count_kwTopics_foldl, count_kwTopics_foldl]
    have h1 : 0 < kws1.count k := List.count_pos_iff.mpr hk1
    have h2 : 0 < kws2.count k := List.count_pos_iff.mpr hk2
    omega

/-- Witness for C6 at a concrete state: registering topic "T" first with
["x"], then with ["x","y"], from the empty graph. -/
theorem C6_register_topic_twice_witness :
    topicKeywords (register_topic (register_topic {} "T" ["x"] [] "")
        "T" ["x", "y"] [] "") "T" = ["x", "y"] ∧
    (kwTopics (register_topic (register_topic {} "T" ["x"] [] "")
        "T" ["x", "y"] [] "") "x").count "T"
      = (kwTopics {} "x").count "T" + (["x"] : List String).count "x"
        + (["x", "y"] : List String).count "x" ∧
    (kwTopics ({} : ContentKnowledgeGraph) "x").count "T" + 2 ≤
      (kwTopics (register_topic (register_topic {} "T" ["x"] [] "")
        "T" ["x", "y"] [] "") "x").count "T" :=
  C6_register_topic_twice {} "T" ["x"] ["x", "y"] [] [] "" "" "x"
    (by simp) (by simp) (by simp)

/-! ## KnowledgeGraph (src/knowledge_agents.py, lines 120-162) -/

/-- One value of `KnowledgeGraph.concepts`: the dict built by `add_concept`
(`definition`, `evidence_level` on a 0-1 scale per the source comment, and the
`connections` / `prerequisites` / `implications` lists, all initialised empty).
Float scores are modelled as rationals. -/
structure ConceptEntry where
  definition : String
  evidence_level : ℚ
  connections : List String
  prerequisites : List String
  implications : List String
deriving Repr, DecidableEq

/-- One element of `KnowledgeGraph.relationships`, the dict
`{'from': ..., 'to': ..., 'type': ...}` appended by `add_relationship`
(`from` and `type` are reserved words in Lean, hence the field names). -/
structure KnowledgeRelationship where
  fromConcept : String
  toConcept : String
  relationshipType : String
deriving Repr, DecidableEq

/-- State of `KnowledgeGraph.__init__`: every field starts empty. -/
structure KnowledgeGraph where
  concepts : List (String × ConceptEntry) := []
  relationships : List KnowledgeRelationship := []
  hierarchies : List (String × List String) := []
  dependencies : List (String × List String) := []
  contradictions : List String := []
  evidence_strength : List (String × ℚ) := []
deriving Repr, DecidableEq

/-- KnowledgeGraph.add_concept: stores (or overwrites) the concept entry with
the given definition and evidence level and empty connection lists. -/
def add_concept (g : KnowledgeGraph) (concept definition : String)
    (evidence_level : ℚ) : KnowledgeGraph :=
  { g with concepts :=
      dictInsert g.concepts concept ⟨definition, evidence_level, [], [], []⟩ }

/-- KnowledgeGraph.add_relationship: appends a relationship record; note that
it does not touch any concept's `connections` list. -/
def add_relationship (g : KnowledgeGraph) (concept1 concept2 relationship_type : String) :
    KnowledgeGraph :=
  { g with relationships :=
      g.relationships ++ [⟨concept1, concept2, relationship_type⟩] }

/-- KnowledgeGraph.find_knowledge_gaps: the loop
`for concept, data in self.concepts.items()` appends, for each concept in
insertion order, first a weak-evidence gap when `evidence_level < 0.7` and then
an isolation gap when `connections` is empty. -/
def find_knowledge_gaps (g : KnowledgeGraph) : List String :=
  g.concepts.foldl
    (fun gaps cd =>
      let gaps := if cd.2.evidence_level < 7/10
        then gaps ++ ["Weak evidence for: " ++ cd.1] else gaps
      if cd.2.connections.length = 0
        then gaps ++ ["Isolated concept: " ++ cd.1] else gaps)
    []

/-- The gap entries contributed by a single concept: its weak-evidence entry
(if any) directly followed by its isolation entry (if any). -/
def conceptGapMsgs (cd : String × ConceptEntry) : List String :=
  (if cd.2.evidence_level < 7/10 then ["Weak evidence for: " ++ cd.1] else []) ++
  (if cd.2.connections.length = 0 then ["Isolated concept: " ++ cd.1] else [])

/-- Worded from claim C3 / spec §4.2 `find_gaps()`: all weak-evidence entries
first, then all isolation entries, each group in concept-insertion order.
This definition follows the claim's words, for comparison with
`find_knowledge_gaps`, which follows the source. -/
def find_knowledge_gaps_claimOrder (g : KnowledgeGraph) : List String :=
  (g.concepts.filter (fun cd => decide (cd.2.evidence_level < 7/10))).map
      (fun cd => "Weak evidence for: " ++ cd.1) ++
  (g.concepts.filter (fun cd => decide (cd.2.connections.length = 0))).map
      (fun cd => "Isolated concept: " ++ cd.1)

theorem find_knowledge_gaps_foldl_eq (l : List (String × ConceptEntry)) :
    ∀ init : List String,
      l.foldl
        (fun gaps cd =>
          let gaps := if cd.2.evidence_level < 7/10
            then gaps ++ ["Weak evidence for: " ++ cd.1] else gaps
          if cd.2.connections.length = 0
            then gaps ++ ["Isolated concept: " ++ cd.1] else gaps)
        init = init ++ (l.map conceptGapMsgs).flatten := by
  induction l with
  | nil => intro init; simp
  | cons cd l ih =>
    intro init
    rw [List.foldl_cons, ih]
    simp only [List.map_cons, List.flatten_cons, conceptGapMsgs]
    by_cases h1 : cd.2.evidence_level < 7/10 <;> by_cases h2 : cd.2.connections.length = 0 <;>
      simp [h1, h2]

/-- The per-concept interleaved gap list is a permutation of the two-group
(evidence first, then isolation) presentation: same entries, different order. -/
theorem gaps_perm_claimOrder (l : List (String × ConceptEntry)) :
    ((l.map conceptGapMsgs).flatten).Perm
      ((l.filter (fun cd => decide (cd.2.evidence_level < 7/10))).map
          (fun cd => "Weak evidence for: " ++ cd.1) ++
        (l.filter (fun cd => decide (cd.2.connections.length = 0))).map
          (fun cd => "Isolated concept: " ++ cd.1)) := by
  induction l with
  | nil => simp
  | cons cd l ih =>
    have hmid : ∀ (a : String) (L1 L2 J : List String), J.Perm (L1 ++ L2) →
        (a :: J).Perm (L1 ++ a :: L2) := by
      intro a L1 L2 J hJ
      exact (hJ.cons a).trans List.perm_middle.symm
    by_cases h1 : cd.2.evidence_level < 7/10 <;> by_cases h2 : cd.2.connections.length = 0
    · simp only [List.map_cons, List.flatten_cons, conceptGapMsgs, List.filter_cons, h1, h2,
        if_true, if_pos, decide_True, List.map_cons, List.cons_append, List.singleton_append]
      exact List.Perm.cons _ (hmid _ _ _ _ ih)
    · simp only [List.map_cons, List.flatten_cons, conceptGapMsgs, List.filter_cons, h1, h2,
        decide_True, decide_False, if_true, if_false, List.map_cons, List.cons_append,
        List.singleton_append, List.append_nil, List.nil_append]
      exact List.Perm.cons _ ih
    · simp only [List.map_cons, List.flatten_cons, conceptGapMsgs, List.filter_cons, h1, h2,
        decide_True, decide_False, if_true, if_false, List.map_cons, List.cons_append,
        List.singleton_append, List.append_nil, List.nil_append]
      exact hmid _ _ _ _ ih
    · simp only [List.map_cons, List.flatten_cons, conceptGapMsgs, List.filter_cons, h1, h2,
        decide_False, if_false, List.append_nil, List.nil_append]
      exact ih

/-! ## Claims C3, C7, C8 -/

/-- The concrete graph for the C3 counterexample: two concepts, both with weak
evidence (0.6 < 0.7) and both isolated (`add_concept` always stores empty
`connections`, and nothing in the source ever appends to them). -/
def gapScenarioGraph : KnowledgeGraph :=
  add_concept (add_concept {} "A" "defA" (3/5)) "B" "defB" (3/5)

/-- C3 counterexample: on a graph with two weak, isolated concepts the source
interleaves the gap entries per concept ("Weak A", "Isolated A", "Weak B",
"Isolated B"), not "all evidence-gap entries first and all isolation-gap
entries after them" as the claim orders them, so the claimed ordering is false
at this state. -/
theorem C3_counterexample_gap_order :
    find_knowledge_gaps gapScenarioGraph =
      ["Weak evidence for: A", "Isolated concept: A",
        "Weak evidence for: B", "Isolated concept: B"] ∧
    find_knowledge_gaps_claimOrder gapScenarioGraph =
      ["Weak evidence for: A", "Weak evidence for: B",
        "Isolated concept: A", "Isolated concept: B"] ∧
    find_knowledge_gaps gapScenarioGraph ≠ find_knowledge_gaps_claimOrder gapScenarioGraph := by
  have hconcepts : gapScenarioGraph.concepts =
      [("A", ⟨"defA", 3/5, [], [], []⟩), ("B", ⟨"defB", 3/5, [], [], []⟩)] := rfl
  have hlt : ((3 : ℚ)/5 < 7/10) := by norm_num
  have h1 : find_knowledge_gaps gapScenarioGraph =
      ["Weak evidence for: A", "Isolated concept: A",
        "Weak evidence for: B", "Isolated concept: B"] := by
    simp [find_knowledge_gaps, hconcepts, hlt]
  have h2 : find_knowledge_gaps_claimOrder gapScenarioGraph =
      ["Weak evidence for: A", "Weak evidence for: B",
        "Isolated concept: A", "Isolated concept: B"] := by
    simp [find_knowledge_gaps_claimOrder, hconcepts, hlt]
  refine ⟨h1, h2, ?_⟩
  rw [h1, h2]
  decide

/-- C3 amended: `find_knowledge_gaps` emits one weak-evidence entry per concept
with evidence strictly below 0.7 and one isolation entry per concept with zero
connections, grouped per concept in insertion order (a concept's evidence
entry immediately before its isolation entry); as a multiset this agrees with
the claimed evidence-first-then-isolation presentation. -/
theorem C3_gap_entries (g : KnowledgeGraph) :
    find_knowledge_gaps g = (g.concepts.map conceptGapMsgs).flatten ∧
    (find_knowledge_gaps g).Perm (find_knowledge_gaps_claimOrder g) := by
  have heq : find_knowledge_gaps g = (g.concepts.map conceptGapMsgs).flatten := by
    simpa [find_knowledge_gaps] using find_knowledge_gaps_foldl_eq g.concepts []
  refine ⟨heq, ?_⟩
  rw [heq]
  exact gaps_perm_claimOrder g.concepts

/-- The invariant of claim C7 / spec §3: every stored concept's evidence level
lies in the closed interval [0, 1]. -/
def EvidenceInRange (g : KnowledgeGraph) : Prop :=
  ∀ p ∈ g.concepts, 0 ≤ p.2.evidence_level ∧ p.2.evidence_level ≤ 1

/-- C7 counterexample: `add_concept` stores its `evidence_level` argument
without clamping or validation, so a single call with evidence 2 takes the
empty graph (which satisfies the invariant) to a state that violates it: the
invariant is not preserved by every call to `add_concept`. -/
theorem C7_counterexample_unclamped :
    EvidenceInRange ({} : KnowledgeGraph) ∧
    ¬ EvidenceInRange (add_concept {} "c" "d" 2) := by
  constructor
  · intro p hp
    simp at hp
  · intro h
    have hm : ("c", (⟨"d", 2, [], [], []⟩ : ConceptEntry)) ∈
        (add_concept {} "c" "d" 2).concepts := by
      rw [show (add_concept {} "c" "d" 2).concepts =
        [("c", (⟨"d", 2, [], [], []⟩ : ConceptEntry))] from rfl]
      exact List.mem_singleton_self _
    have h2 := (h _ hm).2
    norm_num at h2

/-- C7 amended: the [0,1] invariant is preserved by `add_concept` whenever the
supplied evidence level itself lies in [0,1] (the documented 0-1 scale), and
unconditionally by `add_relationship`, which never touches the concept map. -/
theorem C7_evidence_invariant (g : KnowledgeGraph) (c d : String) (e : ℚ)
    (hg : EvidenceInRange g) (h0 : 0 ≤ e) (h1 : e ≤ 1) :
    EvidenceInRange (add_concept g c d e) ∧
    (∀ c1 c2 rt, EvidenceInRange (add_relationship g c1 c2 rt)) := by
  constructor
  · intro p hp
    rcases mem_dictInsert _ _ _ p hp with hp | hp
    · subst hp; exact ⟨h0, h1⟩
    · exact hg p hp
  · intro c1 c2 rt p hp
    exact hg p hp

/-- Witness for C7 amended: adding concept "c" with in-range evidence 1/2 to
the empty graph preserves the invariant. -/
theorem C7_evidence_invariant_witness :
    EvidenceInRange (add_concept {} "c" "d" (1/2)) ∧
    (∀ c1 c2 rt, EvidenceInRange (add_relationship {} c1 c2 rt)) :=
  C7_evidence_invariant {} "c" "d" (1/2)
    (by intro p hp; simp at hp)
    (by norm_num) (by norm_num)

/-- The method call `find_knowledge_gaps()` as a state transition: the body
only reads `self.concepts`, so the embedding returns the gap list together
with the unchanged graph. -/
def find_knowledge_gaps_run (g : KnowledgeGraph) : List String × KnowledgeGraph :=
  (find_knowledge_gaps g, g)

/-- C8: `find_knowledge_gaps` is an idempotent query: it leaves the graph
unchanged, and a second call on the resulting state returns the identical
sequence. -/
theorem C8_find_gaps_idempotent (g : KnowledgeGraph) :
    (find_knowledge_gaps_run g).2 = g ∧
    (find_knowledge_gaps_run ((find_knowledge_gaps_run g).2)).1
      = (find_knowledge_gaps_run g).1 :=
  ⟨rfl, rfl⟩

/-! ## The content pipeline (src/content_agents.py, lines 40-56 and 167-502)

The external generation collaborator `_call_claude` is modelled as an oracle
`callClaude : String → List V → Except E V`: each pipeline call is identified
by the agent's key in the orchestrator's `agents` dict, together with the list
of earlier phase outputs that the call's prompt context serializes (the prompt
text built by `_build_prompt` is a pure function of these, so it is absorbed
into the call descriptor).  `V` is the type of the collaborator's structured
outputs and `E` the type of the errors it can raise. -/

/-- The dataclass ContentBrief (src/content_agents.py, lines 40-56). -/
structure ContentBrief where
  topic : String
  target_audience : String
  primary_keyword : String
  secondary_keywords : List String
  content_type : String
  word_count : Nat
  business_goal : String
  pain_points : List String
  desired_outcomes : List String
  competitors_to_beat : Option (List String) := none
  data_sources : Option (List String) := none
  internal_links : Option (List String) := none
  tone : String := "expert-guide"
  urgency_level : String := "medium"
deriving Repr, DecidableEq

/-- ContentAgent.generate: builds the prompt and returns the delegate's result
unmodified — a single `await self._call_claude(prompt)` with no retry, no
fallback and no exception handler around it. -/
def ContentAgent.generate {V E : Type} (callClaude : String → List V → Except E V)
    (agentKey : String) (ctx : List V) : Except E V :=
  callClaude agentKey ctx

/-- The `metadata` value of `create_blog_post`'s returned dict. -/
structure ContentMetadata where
  created : String
  agents_used : List String
  word_count : Nat
deriving Repr, DecidableEq

/-- A value of the aggregate record returned by `create_blog_post`: the brief
(as a plain mapping via `asdict`), a phase output, or the metadata mapping. -/
inductive ContentRecordValue (V : Type) where
  | briefVal : ContentBrief → ContentRecordValue V
  | phaseVal : V → ContentRecordValue V
  | metaVal : ContentMetadata → ContentRecordValue V
deriving DecidableEq

/-- The keys of `ContentEditorInChief.agents` in insertion order
(src/content_agents.py, lines 410-423); `metadata.agents_used` lists them. -/
def contentAgentKeys : List String :=
  ["seo_researcher", "headline_optimizer", "narrative_architect", "data_storyteller",
   "content_creator", "seo_optimizer", "readability_editor", "fact_checker",
   "cta_specialist", "quality_auditor"]

/-- The agent keys `create_blog_post` actually awaits, in call order
(src/content_agents.py, lines 432-479).  Note `fact_checker` is initialised
but never called. -/
def contentPipelineCalls : List String :=
  ["seo_researcher", "headline_optimizer", "narrative_architect", "data_storyteller",
   "content_creator", "seo_optimizer", "readability_editor", "cta_specialist",
   "quality_auditor"]

/-- ContentEditorInChief.create_blog_post: the nine awaited phases in source
order, each threading the shown earlier outputs as context, then the
knowledge-graph registration and the aggregate record.  The record keys are
exactly those of the returned dict literal (lines 490-502): the `content`,
`optimized`, `edited` and `with_ctas` intermediates are threaded as context
only and appear under no key of their own, and the quality-audit output is
stored under `final_content`. -/
def create_blog_post {V E : Type} (brief : ContentBrief)
    (callClaude : String → List V → Except E V) (g : ContentKnowledgeGraph)
    (now : String) :
    Except E (List (String × ContentRecordValue V) × ContentKnowledgeGraph) := do
  let seo_data ← ContentAgent.generate callClaude "seo_researcher" []
  let headlines ← ContentAgent.generate callClaude "headline_optimizer" [seo_data]
  let structureDesign ← ContentAgent.generate callClaude "narrative_architect"
    [headlines, seo_data]
  let data ← ContentAgent.generate callClaude "data_storyteller" [structureDesign]
  let content ← ContentAgent.generate callClaude "content_creator"
    [structureDesign, data, headlines]
  let optimized ← ContentAgent.generate callClaude "seo_optimizer" [content]
  let edited ← ContentAgent.generate callClaude "readability_editor" [optimized]
  let with_ctas ← ContentAgent.generate callClaude "cta_specialist" [edited]
  let final ← ContentAgent.generate callClaude "quality_auditor" [with_ctas]
  let g1 := register_topic g brief.topic (brief.primary_keyword :: brief.secondary_keywords)
    [("status", "completed"), ("score", "0")] now
  pure ([("brief", ContentRecordValue.briefVal brief),
         ("seo_research", ContentRecordValue.phaseVal seo_data),
         ("headlines", ContentRecordValue.phaseVal headlines),
         ("structure", ContentRecordValue.phaseVal structureDesign),
         ("data", ContentRecordValue.phaseVal data),
         ("final_content", ContentRecordValue.phaseVal final),
         ("metadata", ContentRecordValue.metaVal
           ⟨now, contentAgentKeys, brief.word_count⟩)], g1)

/-! ## The knowledge pipeline (src/knowledge_agents.py, lines 51-66 and 164-612) -/

/-- The dataclass KnowledgeBrief (src/knowledge_agents.py, lines 51-66). -/
structure KnowledgeBrief where
  topic : String
  depth_level : String
  scope : String
  target_expertise : String
  desired_expertise : String
  knowledge_goals : List String
  misconceptions_to_address : List String
  prerequisites : List String
  time_to_mastery : String
  information_density : String
  primary_sources_required : Nat
  data_requirements : List String
  visual_requirements : List String
deriving Repr, DecidableEq

/-- A structured output of the knowledge collaborator: its payload plus the
optional `concepts` list (name, definition, optional `evidence_level`) that
`ResearchAgent.research` feeds into the knowledge graph; an output with no
`concepts` key is modelled by an empty list. -/
structure ResearchOutput (V : Type) where
  payload : V
  concepts : List (String × String × Option ℚ)
deriving DecidableEq

/-- ResearchAgent.research: one `await self._call_claude(prompt)` whose result
is returned unmodified, after every concept of the output is added to the
shared knowledge graph with default evidence 0.5 when the output omits
`evidence_level`. -/
def ResearchAgent.research {V E : Type}
    (callClaude : String → List V → Except E (ResearchOutput V))
    (agentKey : String) (ctx : List V) (g : KnowledgeGraph) :
    Except E (ResearchOutput V × KnowledgeGraph) := do
  let output ← callClaude agentKey ctx
  pure (output, output.concepts.foldl
    (fun g c => add_concept g c.1 c.2.1 (c.2.2.getD (1/2))) g)

/-- The `metadata` value of `create_knowledge_content`'s returned dict. -/
structure KnowledgeMetadata where
  created : String
  agents_used : List String
  information_density : String
  depth_level : String
deriving Repr, DecidableEq

/-- A value of the aggregate record returned by `create_knowledge_content`. -/
inductive KnowledgeRecordValue (V : Type) where
  | briefVal : KnowledgeBrief → KnowledgeRecordValue V
  | phaseVal : ResearchOutput V → KnowledgeRecordValue V
  | gapsVal : List String → KnowledgeRecordValue V
  | metaVal : KnowledgeMetadata → KnowledgeRecordValue V
deriving DecidableEq

/-- The keys of `KnowledgeArchitect.agents` in insertion order
(src/knowledge_agents.py, lines 462-478). -/
def knowledgeAgentKeys : List String :=
  ["primary_researcher", "data_scientist", "concept_mapper", "complexity_translator",
   "academic_researcher", "industry_analyst", "contrarian_researcher", "historical_analyst",
   "framework_builder", "analogy_master", "fact_verificator", "visual_explainer",
   "example_generator", "question_anticipator", "summary_master"]

/-- KnowledgeArchitect.create_knowledge_content: the fifteen awaited research
calls in source order (each threading the shown earlier payloads as context
and growing the shared knowledge graph), then gap detection on the final graph
and the aggregate record with the keys of the returned dict literal
(lines 588-612). -/
def create_knowledge_content {V E : Type} (brief : KnowledgeBrief)
    (callClaude : String → List V → Except E (ResearchOutput V)) (g : KnowledgeGraph)
    (now : String) :
    Except E (List (String × KnowledgeRecordValue V) × KnowledgeGraph) := do
  let (primary_sources, g) ← ResearchAgent.research callClaude "primary_researcher" [] g
  let (academic_research, g) ← ResearchAgent.research callClaude "academic_researcher" [] g
  let (data_analysis, g) ← ResearchAgent.research callClaude "data_scientist" [] g
  let (industry_trends, g) ← ResearchAgent.research callClaude "industry_analyst"
    [primary_sources.payload] g
  let (historical_context, g) ← ResearchAgent.research callClaude "historical_analyst"
    [data_analysis.payload] g
  let (contrarian_views, g) ← ResearchAgent.research callClaude "contrarian_researcher"
    [academic_research.payload] g
  let (concept_map, g) ← ResearchAgent.research callClaude "concept_mapper"
    [primary_sources.payload, academic_research.payload] g
  let (frameworks, g) ← ResearchAgent.research callClaude "framework_builder"
    [concept_map.payload] g
  let (explanations, g) ← ResearchAgent.research callClaude "complexity_translator"
    [concept_map.payload] g
  let (analogies, g) ← ResearchAgent.research callClaude "analogy_master"
    [concept_map.payload] g
  let (examples, g) ← ResearchAgent.research callClaude "example_generator"
    [explanations.payload] g
  let (visuals, g) ← ResearchAgent.research callClaude "visual_explainer"
    [data_analysis.payload, concept_map.payload] g
  let (verification, g) ← ResearchAgent.research callClaude "fact_verificator"
    [primary_sources.payload, academic_research.payload] g
  let (questions, g) ← ResearchAgent.research callClaude "question_anticipator"
    [explanations.payload] g
  let (synthesis, g) ← ResearchAgent.research callClaude "summary_master"
    [primary_sources.payload, academic_research.payload, data_analysis.payload,
     concept_map.payload] g
  let knowledge_gaps := find_knowledge_gaps g
  pure ([("brief", KnowledgeRecordValue.briefVal brief),
         ("primary_sources", KnowledgeRecordValue.phaseVal primary_sources),
         ("academic_research", KnowledgeRecordValue.phaseVal academic_research),
         ("data_analysis", KnowledgeRecordValue.phaseVal data_analysis),
         ("industry_trends", KnowledgeRecordValue.phaseVal industry_trends),
         ("historical_context", KnowledgeRecordValue.phaseVal historical_context),
         ("contrarian_views", KnowledgeRecordValue.phaseVal contrarian_views),
         ("concept_map", KnowledgeRecordValue.phaseVal concept_map),
         ("frameworks", KnowledgeRecordValue.phaseVal frameworks),
         ("explanations", KnowledgeRecordValue.phaseVal explanations),
         ("analogies", KnowledgeRecordValue.phaseVal analogies),
         ("examples", KnowledgeRecordValue.phaseVal examples),
         ("visuals", KnowledgeRecordValue.phaseVal visuals),
         ("verification", KnowledgeRecordValue.phaseVal verification),
         ("anticipated_questions", KnowledgeRecordValue.phaseVal questions),
         ("synthesis", KnowledgeRecordValue.phaseVal synthesis),
         ("knowledge_gaps", KnowledgeRecordValue.gapsVal knowledge_gaps),
         ("metadata", KnowledgeRecordValue.metaVal
           ⟨now, knowledgeAgentKeys, brief.information_density, brief.depth_level⟩)], g)

/-! ## Claims C1 and C2 -/

theorem exceptBind_eq_ok {E α β : Type} (x : Except E α) (f : α → Except E β) (b : β) :
    (x >>= f) = Except.ok b ↔ ∃ a, x = Except.ok a ∧ f a = Except.ok b := by
  cases x <;> simp [Bind.bind, Except.bind]

theorem exceptBind_eq_error {E α β : Type} (x : Except E α) (f : α → Except E β) (e : E) :
    (x >>= f) = Except.error e ↔
      x = Except.error e ∨ ∃ a, x = Except.ok a ∧ f a = Except.error e := by
  cases x <;> simp [Bind.bind, Except.bind]

/-- The keys of the dict returned by `create_blog_post` (lines 490-502). -/
def contentRecordKeys : List String :=
  ["brief", "seo_research", "headlines", "structure", "data", "final_content", "metadata"]

/-- The keys of the dict returned by `create_knowledge_content` (lines 588-612). -/
def knowledgeRecordKeys : List String :=
  ["brief", "primary_sources", "academic_research", "data_analysis", "industry_trends",
   "historical_context", "contrarian_views", "concept_map", "frameworks", "explanations",
   "analogies", "examples", "visuals", "verification", "anticipated_questions", "synthesis",
   "knowledge_gaps", "metadata"]

/-- The declared phase set of the content pipeline as claim C1 names it. -/
def contentDeclaredPhases : List String :=
  ["research", "headline generation", "structure design", "evidence gathering", "writing",
   "SEO optimization", "readability edit", "CTA pass", "quality audit"]

/-- C1 amended: for every brief, every collaborator and every state, a run
that completes without collaborator failure yields a content record whose keys
are exactly `brief, seo_research, headlines, structure, data, final_content,
metadata` (the writing, SEO-optimization, readability-edit and CTA outputs are
threaded as context but recorded under no key; the quality-audit output is
stored as `final_content`), and a knowledge record whose keys are exactly the
brief, its fifteen agent outputs, `knowledge_gaps` and `metadata`. -/
theorem C1_record_keys :
    (∀ (V E : Type) (brief : ContentBrief) (callClaude : String → List V → Except E V)
        (g : ContentKnowledgeGraph) (now : String)
        (r : List (String × ContentRecordValue V) × ContentKnowledgeGraph),
      create_blog_post brief callClaude g now = Except.ok r →
        r.1.map Prod.fst = contentRecordKeys) ∧
    (∀ (V E : Type) (brief : KnowledgeBrief)
        (callClaude : String → List V → Except E (ResearchOutput V))
        (g : KnowledgeGraph) (now : String)
        (r : List (String × KnowledgeRecordValue V) × KnowledgeGraph),
      create_knowledge_content brief callClaude g now = Except.ok r →
        r.1.map Prod.fst = knowledgeRecordKeys) := by
  constructor
  · intro V E brief callClaude g now r h
    simp only [create_blog_post, ContentAgent.generate, exceptBind_eq_ok, pure,
      Except.pure, Except.ok.injEq] at h
    obtain ⟨a1, -, a2, -, a3, -, a4, -, a5, -, a6, -, a7, -, a8, -, a9, -, h⟩ := h
    rw [← h]
    rfl
  · intro V E brief callClaude g now r h
    simp only [create_knowledge_content, ResearchAgent.research, exceptBind_eq_ok, pure,
      Except.pure, Except.ok.injEq] at h
    obtain ⟨a1, -, a2, -, a3, -, a4, -, a5, -, a6, -, a7, -, a8, -, a9, -, a10, -,
      a11, -, a12, -, a13, -, a14, -, a15, -, h⟩ := h
    rw [← h]
    rfl

/-- A concrete brief for the closed witness runs. -/
def sampleBrief : ContentBrief :=
  { topic := "AI SEO", target_audience := "teams", primary_keyword := "ai-seo",
    secondary_keywords := ["ai", "seo"], content_type := "how-to", word_count := 2000,
    business_goal := "lead-generation", pain_points := ["p"], desired_outcomes := ["o"] }

/-- A collaborator that succeeds on every content-pipeline call. -/
def okContentOracle : String → List Unit → Except String Unit := fun _ _ => Except.ok ()

/-- A concrete knowledge brief for the closed witness runs. -/
def sampleKnowledgeBrief : KnowledgeBrief :=
  { topic := "t", depth_level := "advanced", scope := "comprehensive",
    target_expertise := "intermediate", desired_expertise := "expert",
    knowledge_goals := [], misconceptions_to_address := [], prerequisites := [],
    time_to_mastery := "", information_density := "high",
    primary_sources_required := 15, data_requirements := [], visual_requirements := [] }

/-- A collaborator that succeeds on every knowledge-pipeline call, reporting
no concepts. -/
def okKnowledgeOracle : String → List Unit → Except String (ResearchOutput Unit) :=
  fun _ _ => Except.ok ⟨(), []⟩

/-- The successful content run at the sample inputs. -/
def sampleContentRun : List (String × ContentRecordValue Unit) × ContentKnowledgeGraph :=
  ((create_blog_post sampleBrief okContentOracle {} "").toOption).getD ([], {})

/-- The successful knowledge run at the sample inputs. -/
def sampleKnowledgeRun : List (String × KnowledgeRecordValue Unit) × KnowledgeGraph :=
  ((create_knowledge_content sampleKnowledgeBrief okKnowledgeOracle {} "").toOption).getD
    ([], {})

/-- Witness for C1 amended at the sample runs. -/
theorem C1_record_keys_witness :
    sampleContentRun.1.map Prod.fst = contentRecordKeys ∧
    sampleKnowledgeRun.1.map Prod.fst = knowledgeRecordKeys :=
  ⟨C1_record_keys.1 Unit String sampleBrief okContentOracle {} "" sampleContentRun rfl,
   C1_record_keys.2 Unit String sampleKnowledgeBrief okKnowledgeOracle {} ""
     sampleKnowledgeRun rfl⟩

/-- C1 counterexample: a completed content run's record has the 7 keys of the
returned dict literal, but the claim requires exactly one key per the nine
declared phases plus `brief` and `metadata` — 11 pairwise distinct keys — so
the claimed key set is false of this run: the writing, SEO optimization,
readability edit and CTA phases have no keys of their own. -/
theorem C1_counterexample_content_keys :
    (create_blog_post sampleBrief okContentOracle {} "").map
        (fun r => r.1.map Prod.fst) = Except.ok contentRecordKeys ∧
    contentRecordKeys.length = 7 ∧
    contentDeclaredPhases.length + 2 = 11 ∧
    contentRecordKeys.length ≠ contentDeclaredPhases.length + 2 := by
  exact ⟨rfl, rfl, rfl, by decide⟩

/-- C2 amended: when the collaborator fails during a run, `create_blog_post`
returns that error — the very error value one of the nine pipeline calls
produced, unmodified (so no aggregate record exists), and
`ContentAgent.generate` is a single delegate call with no retry and no
fallback.  The orchestrator adds no phase identification to the error: the
error reaching the caller is exactly the collaborator's. -/
theorem C2_error_propagation {V E : Type} (brief : ContentBrief)
    (callClaude : String → List V → Except E V) (g : ContentKnowledgeGraph)
    (now : String) (e : E)
    (h : create_blog_post brief callClaude g now = Except.error e) :
    (∃ key ctx, key ∈ contentPipelineCalls ∧ callClaude key ctx = Except.error e) ∧
    (∀ key ctx, ContentAgent.generate callClaude key ctx = callClaude key ctx) := by
  refine ⟨?_, fun key ctx => rfl⟩
  simp only [create_blog_post, ContentAgent.generate, exceptBind_eq_error,
    exceptBind_eq_ok] at h
  rcases h with h | ⟨a1, -, h⟩
  · exact ⟨"seo_researcher", [], by decide, h⟩
  rcases h with h | ⟨a2, -, h⟩
  · exact ⟨"headline_optimizer", [a1], by decide, h⟩
  rcases h with h | ⟨a3, -, h⟩
  · exact ⟨"narrative_architect", [a2, a1], by decide, h⟩
  rcases h with h | ⟨a4, -, h⟩
  · exact ⟨"data_storyteller", [a3], by decide, h⟩
  rcases h with h | ⟨a5, -, h⟩
  · exact ⟨"content_creator", [a3, a4, a2], by decide, h⟩
  rcases h with h | ⟨a6, -, h⟩
  · exact ⟨"seo_optimizer", [a5], by decide, h⟩
  rcases h with h | ⟨a7, -, h⟩
  · exact ⟨"readability_editor", [a6], by decide, h⟩
  rcases h with h | ⟨a8, -, h⟩
  · exact ⟨"cta_specialist", [a7], by decide, h⟩
  rcases h with h | ⟨a9, -, h⟩
  · exact ⟨"quality_auditor", [a8], by decide, h⟩
  exact absurd h (by simp [pure, Except.pure])

/-- A collaborator that fails only on the research phase's call, with the
bare error "X". -/
def failingResearchOracle : String → List Unit → Except String Unit :=
  fun key _ => if key = "seo_researcher" then Except.error "X" else Except.ok ()

/-- A collaborator that fails only on the writing phase's call, with the same
bare error "X". -/
def failingWritingOracle : String → List Unit → Except String Unit :=
  fun key _ => if key = "content_creator" then Except.error "X" else Except.ok ()

/-- Witness for C2 amended: a run whose collaborator fails at the research
phase propagates exactly that error, and the base agent is a single delegate
call. -/
theorem C2_error_propagation_witness :
    (∃ key ctx, key ∈ contentPipelineCalls ∧
      failingResearchOracle key ctx = Except.error "X") ∧
    (∀ key ctx, ContentAgent.generate failingResearchOracle key ctx
      = failingResearchOracle key ctx) :=
  C2_error_propagation sampleBrief failingResearchOracle {} "" "X" rfl

/-- C2 counterexample: two runs whose collaborator failures happen at
different phases — the writing phase (`content_creator`, the 5th call) versus
the research phase (`seo_researcher`, the 1st call) — deliver the identical
error value "X" to the caller, because the orchestrator propagates the
collaborator's error unmodified and adds nothing to it.  The error reaching
the caller therefore does not identify the failed phase by name, refuting that
part of the claim. -/
theorem C2_counterexample_error_anonymous :
    failingWritingOracle "content_creator" [] = Except.error "X" ∧
    failingWritingOracle "seo_researcher" [] = Except.ok () ∧
    failingResearchOracle "seo_researcher" [] = Except.error "X" ∧
    create_blog_post sampleBrief failingWritingOracle {} "" = Except.error "X" ∧
    create_blog_post sampleBrief failingResearchOracle {} "" = Except.error "X" :=
  ⟨rfl, rfl, rfl, rfl, rfl⟩
